import Mathlib

/-!
Verification development for the configuration and command-line redaction
core of the datadog process agent (Go sources: config/data_scrubber.go,
config/config.go, and the yaml config file of the same package).

The Go code is shallowly embedded: strings are Lean strings (the inputs of
interest are ASCII), Go int / int64 / time.Duration are Int (durations in
nanoseconds, as in Go), fallible functions return Except, and the regular
expressions synthesized by compileStringsToRegex are embedded structurally
(see ScrubAtom / RE below) together with a backtracking matcher reproducing
the leftmost-first match semantics of Go's regexp package on that pattern
class.
-/

namespace ProcessAgent

/-! ## Character classes used by the generated regular expressions -/

/-- The Go regexp class \s, i.e. [\t\n\f\r ]. -/
def isGoSpace (c : Char) : Bool :=
  c = ' ' || c = '\t' || c = '\n' || c = '\x0c' || c = '\r'

/-- Characters allowed in a sensitive word: the complement of the
forbiddenSymbols regexp [^a-zA-Z0-9_*] of data_scrubber.go line 43. -/
def isWordChar (c : Char) : Bool :=
  ('a' ≤ c && c ≤ 'z') || ('A' ≤ c && c ≤ 'Z') || ('0' ≤ c && c ≤ '9')
    || c = '_' || c = '*'

/-- Case folding used for the (?i) flag; exact for the ASCII sensitive
words that pass validation. -/
def foldChar (c : Char) : Char := c.toLower

/-! ## Structural embedding of the synthesized patterns

data_scrubber.go line 81 builds, for each validated word, the pattern

  (?P\x7bkey\x7d( +| -\x7b1,2\x7d)(?i)W)(?P\x7bdelimiter\x7d +|=)(?P\x7bvalue\x7d[^\s]*)

where W is the word with each `*` expanded: a trailing `*` becomes
[^ =]* and a `*` followed by the literal character c becomes [^c\s]*.
A pattern is represented by the list of atoms of W; the fixed key
lead-in, delimiter and value parts are shared by every pattern. -/

/-- One atom of the enhanced word W. -/
inductive ScrubAtom where
  /-- a literal word character, matched case-insensitively ((?i)) -/
  | lit (c : Char)
  /-- the class [^c\s]* under (?i): a greedy run of characters that are
  neither whitespace nor (either case of) c -/
  | starNot (c : Char)
  /-- the class [^ =]*: a greedy run of characters other than space and = -/
  | starNotSpaceEq
  deriving DecidableEq, Repr

/-- Tiny regular-expression syntax sufficient for the synthesized
patterns: single-character classes, concatenation, ordered alternation
and greedy star over a character class. -/
inductive RE where
  | eps
  | chr (p : Char → Bool)
  | seq (a b : RE)
  | alt (a b : RE)
  | star (p : Char → Bool)

/-- Candidate matches of a greedy star over class p on input s:
all pairs (consumed length, rest), longest first — the preference
order of a backtracking (leftmost-first) engine. -/
def starCands (p : Char → Bool) : List Char → List (Nat × List Char)
  | [] => [(0, [])]
  | c :: cs =>
    if p c then
      ((starCands p cs).map (fun x => (x.1 + 1, x.2))) ++ [(0, c :: cs)]
    else
      [(0, c :: cs)]

/-- All candidate matches of an RE at the head of s, as
(consumed length, rest) pairs in backtracking preference order:
alternation tries its left branch first, stars are greedy.  This is the
submatch-preference order of Go's regexp (leftmost-first semantics). -/
def reCands : RE → List Char → List (Nat × List Char)
  | .eps, s => [(0, s)]
  | .chr _, [] => []
  | .chr p, c :: cs => if p c then [(1, cs)] else []
  | .seq a b, s =>
    (reCands a s).flatMap (fun x => (reCands b x.2).map (fun y => (x.1 + y.1, y.2)))
  | .alt a b, s => reCands a s ++ reCands b s
  | .star p, s => starCands p s

/-- One-or-more of a class (greedy), e.g. the regexp fragment " +". -/
def plusRE (p : Char → Bool) : RE := .seq (.chr p) (.star p)

/-- The key lead-in ( +| -\x7b1,2\x7d): either a run of spaces, or a space
followed by one or two dashes (the counted repetition prefers two). -/
def keyLeadRE : RE :=
  .alt (plusRE (fun c => c = ' '))
    (.seq (.chr (fun c => c = ' '))
      (.alt (.seq (.chr (fun c => c = '-')) (.chr (fun c => c = '-')))
        (.chr (fun c => c = '-'))))

/-- RE of one word atom. -/
def atomRE : ScrubAtom → RE
  | .lit c => .chr (fun x => foldChar x = foldChar c)
  | .starNot c => .star (fun x => !(isGoSpace x) && !(foldChar x = foldChar c))
  | .starNotSpaceEq => .star (fun x => !(x = ' ') && !(x = '='))

/-- RE of the whole enhanced word. -/
def wordRE (atoms : List ScrubAtom) : RE :=
  atoms.foldr (fun a r => .seq (atomRE a) r) .eps

/-- The key group: lead-in followed by the enhanced word. -/
def keyRE (atoms : List ScrubAtom) : RE := .seq keyLeadRE (wordRE atoms)

/-- The delimiter group ( +|=). -/
def delimRE : RE := .alt (plusRE (fun c => c = ' ')) (.chr (fun c => c = '='))

/-- Anchored match of a full pattern at the head of s.  Returns
(key length, delimiter length, value length) of the preferred
(backtracking-first) match, if any.  The value group [^\s]* is last and
always matches greedily, so it is the maximal run of non-whitespace. -/
def matchAt (atoms : List ScrubAtom) (s : List Char) : Option (Nat × Nat × Nat) :=
  (((reCands (keyRE atoms) s).flatMap
      (fun k => (reCands delimRE k.2).map (fun d => (k.1, d.1, d.2)))).head?).map
    (fun r => (r.1, r.2.1, (r.2.2.takeWhile (fun c => !(isGoSpace c))).length))

/-- Leftmost match: the smallest start index at which the pattern
matches, together with the group lengths there (Go regexp finds the
leftmost match and, among matches there, the backtracking-first one). -/
def findMatch (atoms : List ScrubAtom) : List Char → Option (Nat × Nat × Nat × Nat)
  | [] => (matchAt atoms []).map (fun m => (0, m))
  | c :: cs =>
    match matchAt atoms (c :: cs) with
    | some m => some (0, m)
    | none => (findMatch atoms cs).map (fun r => (r.1 + 1, r.2))

/-- MatchString of a compiled pattern. -/
def patternMatches (atoms : List ScrubAtom) (s : List Char) : Bool :=
  (findMatch atoms s).isSome

/-- The replacement mask written over the value group. -/
def maskChars : List Char := ['*', '*', '*', '*', '*', '*', '*', '*']

/-- ReplaceAllString with the template used at data_scrubber.go line 105:
each non-overlapping leftmost match is rewritten to key ++ delimiter ++
the eight-star mask, and scanning resumes after the match.  The fuel
argument bounds the recursion; every match here consumes at least one
character (the key lead-in is nonempty), so length s + 1 fuel suffices
and the fuel-exhausted branch is unreachable. -/
def replaceAllFuel (atoms : List ScrubAtom) : Nat → List Char → List Char
  | 0, s => s
  | fuel + 1, s =>
    match findMatch atoms s with
    | none => s
    | some (i, kl, dl, vl) =>
      let pre := s.take i
      let rest0 := s.drop i
      let key := rest0.take kl
      let delim := (rest0.drop kl).take dl
      let matchLen := kl + dl + vl
      if matchLen = 0 then
        -- Go inserts the replacement and advances one rune on an empty match
        pre ++ maskChars ++ rest0.take 1 ++ replaceAllFuel atoms fuel (rest0.drop 1)
      else
        pre ++ key ++ delim ++ maskChars ++ replaceAllFuel atoms fuel (rest0.drop matchLen)

/-- ReplaceAllString of one pattern over a string. -/
def replaceAllPattern (atoms : List ScrubAtom) (s : List Char) : List Char :=
  replaceAllFuel atoms (s.length + 1) s

/-! ## compileStringsToRegex (data_scrubber.go lines 41-91) -/

/-- The wildcard-expansion loop of compileStringsToRegex (lines 57-79):
a trailing `*` becomes [^ =]*, a `*` followed by c becomes [^c\s]*
(the source reads the following character both as a rune for the
consecutive-star test and as a byte for the class; the two agree because
every word reaching this loop is ASCII), two consecutive `*` invalidate
the word, and any other character is a literal. -/
def scanWord : List Char → Option (List ScrubAtom)
  | [] => some []
  | c :: rest =>
    if c = '*' then
      match rest with
      | [] => some [ScrubAtom.starNotSpaceEq]
      | c2 :: _ =>
        if c2 = '*' then none
        else (scanWord rest).map (fun l => ScrubAtom.starNot c2 :: l)
    else
      (scanWord rest).map (fun l => ScrubAtom.lit c :: l)

/-- Compilation of a single sensitive word: none exactly when the source
skips the word with a warning.  The final regexp.Compile of the Go code
cannot fail on a validated word (the synthesized pattern is well-formed),
so it introduces no further failure case. -/
def compileWord (word : String) : Option (List ScrubAtom) :=
  if word.toList.any (fun c => !(isWordChar c)) then
    none
  else if word = "*" then
    none
  else
    scanWord word.toList

/-- compileStringsToRegex: the loop over words appending each
successfully compiled pattern, skipped words contributing nothing. -/
def compileStringsToRegex (words : List String) : List (List ScrubAtom) :=
  words.foldl
    (fun acc w =>
      match compileWord w with
      | some p => acc ++ [p]
      | none => acc)
    []

/-! ## DataScrubber (data_scrubber.go lines 20-36, 95-119) -/

/-- The default sensitive words (data_scrubber.go lines 13-17). -/
def defaultSensitiveWords : List String :=
  ["password", "passwd", "mysql_pwd",
   "access_token", "auth_token",
   "api_key", "apikey",
   "secret", "credentials", "stripetoken"]

/-- DataScrubber.  The copy of data_scrubber.go in this revision declares
Enabled and SensitivePatterns; the StripAllArguments flag assigned by
config.go (line 274) and the yaml merge belongs to the same struct in the
revision those files come from and is carried here so that those
assignments can be embedded faithfully (no claim below depends on it). -/
structure DataScrubber where
  enabled : Bool
  sensitivePatterns : List (List ScrubAtom)
  stripAllArguments : Bool
  deriving DecidableEq

/-- NewDefaultDataScrubber: enabled, default word list compiled. -/
def newDefaultDataScrubber : DataScrubber :=
  { enabled := true
    sensitivePatterns := compileStringsToRegex defaultSensitiveWords
    stripAllArguments := false }

/-- AddCustomSensitiveWords: compile and append. -/
def addCustomSensitiveWords (ds : DataScrubber) (words : List String) : DataScrubber :=
  { ds with sensitivePatterns := ds.sensitivePatterns ++ compileStringsToRegex words }

/-- strings.Join cmdline " ", as characters. -/
def joinSpaceChars (cmdline : List String) : List Char :=
  (String.intercalate " " cmdline).toList

/-- strings.Split(s, " "): split at every single space; consecutive
spaces yield empty fields and the empty string yields one empty field. -/
def splitGo : List Char → List (List Char)
  | [] => [[]]
  | ' ' :: cs => [] :: splitGo cs
  | c :: cs =>
    match splitGo cs with
    | [] => [[c]]
    | h :: t => (c :: h) :: t

/-- ScrubCmdline (data_scrubber.go lines 95-113): when enabled, join the
tokens with single spaces, run every pattern in order over the evolving
string (MatchString then ReplaceAllString), and re-split only if some
pattern matched, otherwise return the input sequence itself. -/
def scrubCmdline (ds : DataScrubber) (cmdline : List String) : List String :=
  if ds.enabled = false then
    cmdline
  else
    let rawCmdline := joinSpaceChars cmdline
    let st := ds.sensitivePatterns.foldl
      (fun (st : List Char × Bool) pat =>
        if patternMatches pat st.1 then (replaceAllPattern pat st.1, true) else st)
      (rawCmdline, false)
    if st.2 then (splitGo st.1).map (fun cs => String.mk cs) else cmdline

/-! ## Helper predicates used only to state properties -/

/-- Spec-side predicate: the word contains two consecutive wildcards. -/
def hasConsecStars : List Char → Bool
  | [] => false
  | [_] => false
  | c1 :: c2 :: rest => (c1 = '*' && c2 = '*') || hasConsecStars (c2 :: rest)

/-! ## Environment, small parsers (config.go helpers) -/

/-- The process environment (os.Getenv returns "" for unset names). -/
def EnvList := List (String × String)

/-- os.Getenv. -/
def getenv (env : EnvList) (k : String) : String :=
  (((env : List (String × String)).find? (fun kv => kv.1 == k)).map (fun kv => kv.2)).getD ""

/-- strings.ToLower (exact for the ASCII configuration values read
here), written with structural recursion so that concrete instances
reduce definitionally. -/
def strToLower (s : String) : String := String.mk (s.toList.map Char.toLower)

/-- Whitespace trimmed by strings.TrimSpace (ASCII set). -/
def isTrimSpace (c : Char) : Bool :=
  c = ' ' || c = '\t' || c = '\n' || c = '\x0b' || c = '\x0c' || c = '\r'

/-- strings.TrimSpace (exact for the ASCII values read here). -/
def strTrim (s : String) : String :=
  String.mk (((s.toList.dropWhile isTrimSpace).reverse.dropWhile isTrimSpace).reverse)

/-- Split at every occurrence of a separator character. -/
def splitChar (sep : Char) : List Char → List (List Char)
  | [] => [[]]
  | c :: cs =>
    if c = sep then [] :: splitChar sep cs
    else
      match splitChar sep cs with
      | [] => [[c]]
      | h :: t => (c :: h) :: t

/-- strings.Split(s, ","). -/
def goSplitComma (s : String) : List String := (splitChar ',' s.toList).map String.mk

/-- isAffirmative (config.go lines 483-489): error on the empty string,
otherwise whether the lower-cased value is true / yes / 1. -/
def isAffirmative (value : String) : Except Unit Bool :=
  if value = "" then .error ()
  else
    let v := strToLower value
    .ok (v == "true" || v == "yes" || v == "1")

/-- Digit run of strconv.Atoi. -/
def digitsToNat (ds : List Char) : Option Nat :=
  if ds.isEmpty then none
  else ds.foldl
    (fun acc c => acc.bind (fun n => if c.isDigit then some (n * 10 + (c.toNat - '0'.toNat)) else none))
    (some 0)

/-- strconv.Atoi: optional sign followed by at least one digit
(the int64 overflow error is not modelled; no input here approaches it). -/
def goAtoi (s : String) : Option Int :=
  match s.toList with
  | '+' :: ds => (digitsToNat ds).map Int.ofNat
  | '-' :: ds => (digitsToNat ds).map (fun n => -(Int.ofNat n))
  | ds => (digitsToNat ds).map Int.ofNat

/-- pat is an initial segment of s. -/
def leadsWith : List Char → List Char → Bool
  | [], _ => true
  | _ :: _, [] => false
  | p :: ps, c :: cs => p = c && leadsWith ps cs

/-- strings.Index: first index at which pat occurs in s. -/
def findSub (pat : List Char) : List Char → Option Nat
  | [] => if leadsWith pat [] then some 0 else none
  | c :: cs => if leadsWith pat (c :: cs) then some 0 else (findSub pat cs).map (fun i => i + 1)

/-- The scheme/host split shared by getProxySettings and proxyFromEnv
(config.go lines 534-544 and 570-580): scheme defaults to http; a
scheme:// marker inside the host value is stripped and overrides it.
The empty value yields an empty host.  Byte indices of the Go slice
agree with character indices on the ASCII hosts considered. -/
def schemeHostOf (v : String) : String × String :=
  if v = "" then ("http", "")
  else
    match findSub "://".toList v.toList with
    | some i => (String.mk (v.toList.take i), String.mk (v.toList.drop (i + 3)))
    | none => ("http", v)

/-! ## Proxy construction (config.go lines 529-629) -/

/-- Stand-in for *http.Request; the selectors built below never inspect
their request. -/
def Request := String

/-- A proxy selector: Go type func(*http.Request) (*url.URL, error); the
selectors constructed here never return an error, and the URL is
rendered as its string (url.Parse / URL.String round-trip on the proxy
URLs built by constructProxy). -/
def ProxyFunc := Request → Option String

/-- net/http.ProxyURL: a selector that ignores its request and always
returns the fixed URL. -/
def httpProxyURL (u : String) : ProxyFunc := fun _ => some u

/-- Byte admitted verbatim in a percent-encoded userinfo component
(net/url shouldEscape with mode encodeUserPassword): alphanumerics,
-._~ and the sub-delimiters the mode leaves unescaped. -/
def userinfoByteAllowed (b : UInt8) : Bool :=
  let c := Char.ofNat b.toNat
  ('a' ≤ c && c ≤ 'z') || ('A' ≤ c && c ≤ 'Z') || ('0' ≤ c && c ≤ '9')
    || c = '-' || c = '_' || c = '.' || c = '~'
    || c = '$' || c = '&' || c = '+' || c = ',' || c = ';' || c = '='

/-- Upper-case hexadecimal digits used by percent-encoding. -/
def hexDigits : List Char :=
  ['0', '1', '2', '3', '4', '5', '6', '7', '8', '9', 'A', 'B', 'C', 'D', 'E', 'F']

/-- net/url escaping of one userinfo component (url.User /
url.UserPassword followed by Userinfo.String): every UTF-8 byte outside
the allowed set becomes %XX. -/
def percentEncodeUserinfo (s : String) : String :=
  String.mk ((s.toUTF8.toList).foldr
    (fun b acc =>
      if userinfoByteAllowed b then Char.ofNat b.toNat :: acc
      else '%' :: hexDigits.getD (b.toNat / 16) '0' :: hexDigits.getD (b.toNat % 16) '0' :: acc)
    [])

/-- Partial model of net/url.Parse restricted to the URL strings that
constructProxy builds: a space that survives into the string makes the
parse fail (Go reports an invalid host or userinfo character), and the
space-free proxy URLs built below parse successfully.  Failure modes
never exercised by the resolver (invalid percent escapes, control
bytes) are not modelled. -/
def urlParseOk (s : String) : Bool := !(s.toList.contains ' ')

/-- defaultProxyPort (config.go line 28). -/
def defaultProxyPort : Int := 3128

/-- constructProxy (config.go lines 604-629): build
scheme://[userinfo@]host:port, parse it, and wrap the URL in
http.ProxyURL. -/
def constructProxy (host scheme : String) (port : Int) (user password : String) :
    Except Unit ProxyFunc :=
  let userpass : Option String :=
    if user ≠ "" then
      if password ≠ "" then
        some (percentEncodeUserinfo user ++ ":" ++ percentEncodeUserinfo password)
      else
        some (percentEncodeUserinfo user)
    else none
  let path :=
    match userpass with
    | some up => up ++ "@" ++ host ++ ":" ++ toString port
    | none => host ++ ":" ++ toString port
  let path := if scheme ≠ "" then scheme ++ "://" ++ path else path
  if urlParseOk path then .ok (httpProxyURL path) else .error ()

/-! ## The sectioned key-value (ini) file -/

/-- Modelled from the spec: the sectioned key-value file reader (the
File helper type of this package lives outside src/; spec section 6
describes it as get-string / get-int / get-bool / get-duration /
get-string-list, each with a caller-supplied default).  One field per
key the resolver reads, none meaning the key is absent so the getter
returns its default.  The blacklist key is omitted: the compiled
regexps play no part in any property below. -/
structure IniConfig where
  apiKey : Option String := none
  logLevel : Option String := none
  proxyHost : Option String := none
  proxyPort : Option Int := none
  proxyUser : Option String := none
  proxyPassword : Option String := none
  processAgentEnabled : Option String := none
  bindHost : Option String := none
  nonLocalTraffic : Option String := none
  dogstatsdPort : Option Int := none
  endpoint : Option String := none
  queueSize : Option Int := none
  maxProcFDs : Option Int := none
  allowRealTime : Option Bool := none
  logFile : Option String := none
  ddAgentPy : Option String := none
  ddAgentPyEnv : Option (List String) := none
  scrubArgs : Option Bool := none
  customSensitiveWords : Option (List String) := none
  stripProcArguments : Option Bool := none
  procLimit : Option Int := none
  checkIntervalSeconds : List (String × Int) := []
  collectDockerNetwork : Option Bool := none
  containerBlacklist : Option (List String) := none
  containerWhitelist : Option (List String) := none
  containerCacheDurationSeconds : Option Int := none
  windowsArgsRefreshInterval : Option Int := none
  windowsAddNewArgs : Option Bool := none

/-- getProxySettings (config.go lines 532-562): no host means no proxy
and no error; port defaults to 3128 when the key is absent (MustInt
sentinel -1); user and password default to empty. -/
def getProxySettings (m : IniConfig) : Except Unit (Option ProxyFunc) :=
  let (scheme, host) := schemeHostOf (m.proxyHost.getD "")
  if host = "" then .ok none
  else
    let port := let v := m.proxyPort.getD (-1); if v ≠ -1 then v else defaultProxyPort
    let user := m.proxyUser.getD ""
    let password := m.proxyPassword.getD ""
    (constructProxy host scheme port user password).map some

/-- proxyFromEnv (config.go lines 568-599): an empty PROXY_HOST returns
the caller's default selector unchanged; otherwise the port comes from
PROXY_PORT (Atoi, its error ignored leaving 0) or defaults to 3128, and
user/password come from PROXY_USER / PROXY_PASSWORD. -/
def proxyFromEnv (env : EnvList) (defaultVal : Option ProxyFunc) :
    Except Unit (Option ProxyFunc) :=
  let (scheme, host) := schemeHostOf (getenv env "PROXY_HOST")
  if host = "" then .ok defaultVal
  else
    let port :=
      let pv := getenv env "PROXY_PORT"
      if pv ≠ "" then (goAtoi pv).getD 0 else defaultProxyPort
    let user := getenv env "PROXY_USER"
    let password := getenv env "PROXY_PASSWORD"
    (constructProxy host scheme port user password).map some

/-! ## AgentConfig and its resolution (config.go, yaml config file) -/

/-- Check-name durations: Go time.Duration, i.e. nanoseconds. -/
def nsPerSecond : Int := 1000000000

def processChecks : List String := ["process", "rtprocess"]

def containerChecks : List String := ["container", "rtcontainer"]

def defaultEndpoint : String := "https://process.datadoghq.com"

def maxMessageBatch : Int := 100

/-- Modelled from the spec: platform default paths (a per-platform file
outside src/ defines them); their exact values are immaterial to every
property below. -/
def defaultLogFilePath : String := "/var/log/datadog/process-agent.log"

def defaultDDAgentPy : String := "/opt/datadog-agent/embedded/bin/python"

def defaultDDAgentPyEnv : String := "PYTHONPATH=/opt/datadog-agent/agent"

def defaultDDAgentBin : String := "/opt/datadog-agent/bin/agent/agent"

def defaultKubeBlacklist : List String :=
  ["image:gcr.io/google_containers/pause.*", "image:openshift/origin-pod"]

/-- WindowsConfig (config.go lines 43-48). -/
structure WindowsConfig where
  argsRefreshInterval : Int
  addNewArgs : Bool
  deriving DecidableEq

/-- AgentConfig (config.go lines 52-89).  CheckIntervals is Go map
modelled as an association list over the five fixed check names.
Omitted fields: Blacklist (compiled regexps), Transport and Logger
(external http/logging state); no property below mentions them. -/
structure AgentConfig where
  enabled : Bool
  apiKey : String
  hostName : String
  apiEndpoint : String
  logFile : String
  logLevel : String
  logToConsole : Bool
  queueSize : Int
  scrubber : DataScrubber
  maxProcFDs : Int
  maxPerMessage : Int
  allowRealTime : Bool
  ddAgentPy : String
  ddAgentBin : String
  ddAgentPyEnv : List String
  statsdHost : String
  statsdPort : Int
  enabledChecks : List String
  checkIntervals : List (String × Int)
  containerBlacklist : List String
  containerWhitelist : List String
  collectDockerNetwork : Bool
  containerCacheDuration : Int
  proxy : Option ProxyFunc
  windows : WindowsConfig

/-- Lookup in an association list (Go map read). -/
def lookupKV (l : List (String × Int)) (k : String) : Option Int :=
  ((l.find? (fun kv => kv.1 == k)).map (fun kv => kv.2))

/-- Assignment to an existing key of the interval map (every key
written by the resolver is present from the defaults). -/
def updateKV (l : List (String × Int)) (k : String) (v : Int) : List (String × Int) :=
  l.map (fun kv => if kv.1 == k then (kv.1, v) else kv)

/-- NewDefaultAgentConfig (config.go lines 112-195).
canAccessContainers stands for the external container.GetContainers
probe deciding the Enabled default; the HOST_PROC / HOST_SYS
environment mutation is an external side effect outside the embedding,
and the Kubernetes detection reads KUBERNETES_SERVICE_HOST. -/
def newDefaultAgentConfig (canAccessContainers : Bool) (env : EnvList) : AgentConfig :=
  { enabled := canAccessContainers
    apiKey := ""
    hostName := ""
    apiEndpoint := defaultEndpoint
    logFile := defaultLogFilePath
    logLevel := "info"
    logToConsole := false
    queueSize := 20
    maxProcFDs := 200
    maxPerMessage := 100
    allowRealTime := true
    ddAgentPy := defaultDDAgentPy
    ddAgentBin := ""
    ddAgentPyEnv := [defaultDDAgentPyEnv]
    statsdHost := "127.0.0.1"
    statsdPort := 8125
    enabledChecks := containerChecks
    checkIntervals :=
      [("process", 10 * nsPerSecond), ("rtprocess", 2 * nsPerSecond),
       ("container", 10 * nsPerSecond), ("rtcontainer", 2 * nsPerSecond),
       ("connections", 10 * nsPerSecond)]
    containerBlacklist :=
      if getenv env "KUBERNETES_SERVICE_HOST" ≠ "" then defaultKubeBlacklist else []
    containerWhitelist := []
    collectDockerNetwork := true
    containerCacheDuration := 10 * nsPerSecond
    scrubber := newDefaultDataScrubber
    proxy := none
    windows := { argsRefreshInterval := 15, addNewArgs := true } }

/-- Default used only by Option.iget in concrete witnesses. -/
instance : Inhabited AgentConfig := ⟨newDefaultAgentConfig true []⟩

/-- The [Main] / [process.config] block of NewAgentConfig (config.go
lines 214-303), run when the legacy file has a Main section.  A missing
api_key key is the fatal Get error of line 215; an unparsable endpoint
URL is the fatal error of line 250.  The blacklist compilation (lines
260-268) is omitted with the Blacklist field. -/
def iniStage (cfg0 : AgentConfig) (ini : IniConfig) : Except Unit AgentConfig :=
  match ini.apiKey with
  | none => .error ()
  | some a =>
    let cfg : AgentConfig := { cfg0 with
      apiKey := (goSplitComma a).headD ""
      logLevel := strToLower (ini.logLevel.getD "INFO") }
    let cfg : AgentConfig := { cfg with
      proxy := match getProxySettings ini with | .ok p => p | .error _ => none }
    let cfg : AgentConfig :=
      match isAffirmative (ini.processAgentEnabled.getD "") with
      | .ok true => { cfg with enabled := true, enabledChecks := processChecks }
      | .ok false => { cfg with enabled := false }
      | .error _ => cfg
    let cfg : AgentConfig := { cfg with statsdHost := ini.bindHost.getD cfg.statsdHost }
    let cfg : AgentConfig :=
      match isAffirmative (ini.nonLocalTraffic.getD "") with
      | .ok true => { cfg with statsdHost := "0.0.0.0" }
      | _ => cfg
    let cfg : AgentConfig := { cfg with statsdPort := ini.dogstatsdPort.getD cfg.statsdPort }
    let e := ini.endpoint.getD defaultEndpoint
    if urlParseOk e = false then .error ()
    else
      let cfg : AgentConfig := { cfg with
        apiEndpoint := e
        queueSize := ini.queueSize.getD cfg.queueSize
        maxProcFDs := ini.maxProcFDs.getD cfg.maxProcFDs
        allowRealTime := ini.allowRealTime.getD cfg.allowRealTime
        logFile := ini.logFile.getD cfg.logFile
        ddAgentPy := ini.ddAgentPy.getD cfg.ddAgentPy
        ddAgentPyEnv := ini.ddAgentPyEnv.getD cfg.ddAgentPyEnv }
      let scr : DataScrubber := { cfg.scrubber with enabled := ini.scrubArgs.getD true }
      let scr : DataScrubber := addCustomSensitiveWords scr (ini.customSensitiveWords.getD [])
      let scr : DataScrubber := { scr with stripAllArguments := ini.stripProcArguments.getD false }
      let cfg : AgentConfig := { cfg with scrubber := scr }
      let batchSize := ini.procLimit.getD cfg.maxPerMessage
      let cfg : AgentConfig :=
        if batchSize ≤ maxMessageBatch then { cfg with maxPerMessage := batchSize }
        else { cfg with maxPerMessage := maxMessageBatch }
      let newIntervals : List (String × Int) :=
        cfg.checkIntervals.map (fun (kv : String × Int) =>
          (kv.1,
           ((lookupKV ini.checkIntervalSeconds (kv.1 ++ "_interval")).map
              (fun s => s * nsPerSecond)).getD kv.2))
      let cfg : AgentConfig := { cfg with checkIntervals := newIntervals }
      let cfg : AgentConfig := { cfg with
        collectDockerNetwork := ini.collectDockerNetwork.getD cfg.collectDockerNetwork
        containerBlacklist := ini.containerBlacklist.getD cfg.containerBlacklist
        containerWhitelist := ini.containerWhitelist.getD cfg.containerWhitelist
        containerCacheDuration := (ini.containerCacheDurationSeconds.getD 30) * nsPerSecond }
      let cfg : AgentConfig := { cfg with windows :=
        { argsRefreshInterval :=
            ini.windowsArgsRefreshInterval.getD cfg.windows.argsRefreshInterval
          addNewArgs := ini.windowsAddNewArgs.getD true } }
      .ok cfg

/-- The intervals block of the yaml schema (zero meaning unset, as for
the Go zero value of an omitted int field). -/
structure YamlIntervals where
  container : Int := 0
  containerRealTime : Int := 0
  process : Int := 0
  processRealTime : Int := 0
  deriving DecidableEq

/-- The windows block of the yaml schema. -/
structure YamlWindows where
  argsRefreshInterval : Int := 0
  addNewArgs : Option Bool := none
  deriving DecidableEq

/-- The process_config block of the yaml schema.  BlacklistPatterns is
omitted with the Blacklist field of AgentConfig. -/
structure YamlProcess where
  enabled : String := ""
  logFile : String := ""
  intervals : YamlIntervals := {}
  scrubArgs : Option Bool := none
  customSensitiveWords : List String := []
  stripProcessArguments : Bool := false
  queueSize : Int := 0
  maxProcFDs : Int := 0
  maxPerMessage : Int := 0
  ddAgentBin : String := ""
  processDDURL : String := ""
  windows : YamlWindows := {}
  deriving DecidableEq

/-- YamlAgentConfig: the structured (Agent 6) configuration file. -/
structure YamlAgentConfig where
  apiKey : String := ""
  logToConsole : Bool := false
  process : YamlProcess := {}
  deriving DecidableEq

/-- mergeYamlConfig.  The two trailing reads of the global datadog
configuration (log_level and dogstatsd_port) are passed in as
ddLogLevel / ddStatsdPort; the Transport construction is omitted with
the Transport field.  Note the rtprocess branch multiplies
Intervals.Process, exactly as the source does. -/
def mergeYamlConfig (ddLogLevel : String) (ddStatsdPort : Int)
    (agentConf0 : AgentConfig) (yc : YamlAgentConfig) : Except Unit AgentConfig :=
  let agentConf : AgentConfig := { agentConf0 with apiKey := yc.apiKey }
  let agentConf : AgentConfig :=
    match isAffirmative yc.process.enabled with
    | .ok true => { agentConf with enabled := true, enabledChecks := processChecks }
    | .ok false =>
      if strToLower yc.process.enabled = "disabled" then { agentConf with enabled := false }
      else { agentConf with enabled := true, enabledChecks := containerChecks }
    | .error _ =>
      if strToLower yc.process.enabled = "disabled" then { agentConf with enabled := false }
      else agentConf
  if yc.process.processDDURL ≠ "" ∧ urlParseOk yc.process.processDDURL = false then .error ()
  else
    let agentConf : AgentConfig :=
      if yc.process.processDDURL ≠ "" then { agentConf with apiEndpoint := yc.process.processDDURL }
      else agentConf
    let agentConf : AgentConfig := if yc.logToConsole then { agentConf with logToConsole := true } else agentConf
    let agentConf : AgentConfig :=
      if yc.process.logFile ≠ "" then { agentConf with logFile := yc.process.logFile } else agentConf
    let agentConf : AgentConfig :=
      if yc.process.intervals.container ≠ 0 then
        let ci := updateKV agentConf.checkIntervals "container" (yc.process.intervals.container * nsPerSecond)
        { agentConf with checkIntervals := ci }
      else agentConf
    let agentConf : AgentConfig :=
      if yc.process.intervals.containerRealTime ≠ 0 then
        let ci := updateKV agentConf.checkIntervals "rtcontainer" (yc.process.intervals.containerRealTime * nsPerSecond)
        { agentConf with checkIntervals := ci }
      else agentConf
    let agentConf : AgentConfig :=
      if yc.process.intervals.process ≠ 0 then
        let ci := updateKV agentConf.checkIntervals "process" (yc.process.intervals.process * nsPerSecond)
        { agentConf with checkIntervals := ci }
      else agentConf
    let agentConf : AgentConfig :=
      if yc.process.intervals.processRealTime ≠ 0 then
        let ci := updateKV agentConf.checkIntervals "rtprocess" (yc.process.intervals.process * nsPerSecond)
        { agentConf with checkIntervals := ci }
      else agentConf
    let scr : DataScrubber :=
      match yc.process.scrubArgs with
      | some b => { agentConf.scrubber with enabled := b }
      | none => agentConf.scrubber
    let scr : DataScrubber := addCustomSensitiveWords scr yc.process.customSensitiveWords
    let scr : DataScrubber :=
      if yc.process.stripProcessArguments then
        { scr with stripAllArguments := yc.process.stripProcessArguments }
      else scr
    let agentConf : AgentConfig := { agentConf with scrubber := scr }
    let agentConf : AgentConfig :=
      if yc.process.queueSize > 0 then { agentConf with queueSize := yc.process.queueSize }
      else agentConf
    let agentConf : AgentConfig :=
      if yc.process.maxProcFDs > 0 then { agentConf with maxProcFDs := yc.process.maxProcFDs }
      else agentConf
    let agentConf : AgentConfig :=
      if yc.process.maxPerMessage > 0 then
        if yc.process.maxPerMessage ≤ maxMessageBatch then
          { agentConf with maxPerMessage := yc.process.maxPerMessage }
        else agentConf
      else agentConf
    let agentConf : AgentConfig := { agentConf with ddAgentBin := defaultDDAgentBin }
    let agentConf : AgentConfig :=
      if yc.process.ddAgentBin ≠ "" then { agentConf with ddAgentBin := yc.process.ddAgentBin }
      else agentConf
    let agentConf : AgentConfig :=
      if yc.process.windows.argsRefreshInterval ≠ 0 then
        { agentConf with windows := { agentConf.windows with argsRefreshInterval := yc.process.windows.argsRefreshInterval } }
      else agentConf
    let agentConf : AgentConfig :=
      match yc.process.windows.addNewArgs with
      | some b => { agentConf with windows := { agentConf.windows with addNewArgs := b } }
      | none => agentConf
    let agentConf : AgentConfig := { agentConf with logLevel := ddLogLevel, statsdPort := ddStatsdPort }
    .ok agentConf

/-! mergeEnvironmentVariables (config.go lines 354-470) is a sequence
of independent per-variable blocks; each block is embedded as one
function below, and mergeEnvironmentVariables composes them in source
order. -/

/-- DD_PROCESS_AGENT_ENABLED block (lines 356-361). -/
def envEnabledStage (env : EnvList) (c : AgentConfig) : AgentConfig :=
  match isAffirmative (getenv env "DD_PROCESS_AGENT_ENABLED") with
  | .ok true => { c with enabled := true, enabledChecks := processChecks }
  | .ok false => { c with enabled := false }
  | .error _ => c

/-- DD_HOSTNAME block (lines 363-366). -/
def envHostNameStage (env : EnvList) (c : AgentConfig) : AgentConfig :=
  if getenv env "DD_HOSTNAME" ≠ "" then { c with hostName := getenv env "DD_HOSTNAME" } else c

/-- API_KEY / DD_API_KEY block (lines 368-384): DD_API_KEY preferred,
the chosen value split on commas, each piece trimmed, first one kept. -/
def envAPIKeyStage (env : EnvList) (c : AgentConfig) : AgentConfig :=
  let apiKey :=
    if getenv env "DD_API_KEY" ≠ "" then getenv env "DD_API_KEY" else getenv env "API_KEY"
  if apiKey ≠ "" then
    { c with apiKey := ((goSplitComma apiKey).map (fun s => strTrim s)).headD "" }
  else c

/-- LOG_LEVEL / DD_LOG_LEVEL block (lines 386-392). -/
def envLogLevelStage (env : EnvList) (c : AgentConfig) : AgentConfig :=
  let c : AgentConfig :=
    if getenv env "LOG_LEVEL" ≠ "" then { c with logLevel := getenv env "LOG_LEVEL" } else c
  if getenv env "DD_LOG_LEVEL" ≠ "" then { c with logLevel := getenv env "DD_LOG_LEVEL" } else c

/-- DD_LOGS_STDOUT / LOG_TO_CONSOLE block (lines 393-398). -/
def envLogToConsoleStage (env : EnvList) (c : AgentConfig) : AgentConfig :=
  let c : AgentConfig :=
    match isAffirmative (getenv env "DD_LOGS_STDOUT") with
    | .ok b => { c with logToConsole := b }
    | .error _ => c
  match isAffirmative (getenv env "LOG_TO_CONSOLE") with
  | .ok b => { c with logToConsole := b }
  | .error _ => c

/-- proxyFromEnv block (lines 400-403): on error the selector is set to
nil (not restored). -/
def envProxyStage (env : EnvList) (c : AgentConfig) : AgentConfig :=
  match proxyFromEnv env c.proxy with
  | .ok p => { c with proxy := p }
  | .error _ => { c with proxy := none }

/-- DD_PROCESS_AGENT_URL block (lines 405-413): an unparsable URL is
only logged. -/
def envEndpointStage (env : EnvList) (c : AgentConfig) : AgentConfig :=
  if getenv env "DD_PROCESS_AGENT_URL" ≠ "" then
    if urlParseOk (getenv env "DD_PROCESS_AGENT_URL") then
      { c with apiEndpoint := getenv env "DD_PROCESS_AGENT_URL" }
    else c
  else c

/-- DD_SCRUB_ARGS block (lines 416-420). -/
def envScrubArgsStage (env : EnvList) (c : AgentConfig) : AgentConfig :=
  match isAffirmative (getenv env "DD_SCRUB_ARGS") with
  | .ok true => { c with scrubber := { c.scrubber with enabled := true } }
  | .ok false => { c with scrubber := { c.scrubber with enabled := false } }
  | .error _ => c

/-- DD_CUSTOM_SENSITIVE_WORDS block (lines 422-424). -/
def envCustomWordsStage (env : EnvList) (c : AgentConfig) : AgentConfig :=
  if getenv env "DD_CUSTOM_SENSITIVE_WORDS" ≠ "" then
    { c with scrubber := addCustomSensitiveWords c.scrubber (goSplitComma (getenv env "DD_CUSTOM_SENSITIVE_WORDS")) }
  else c

/-- DD_STRIP_PROCESS_ARGS block (lines 425-427). -/
def envStripArgsStage (env : EnvList) (c : AgentConfig) : AgentConfig :=
  match isAffirmative (getenv env "DD_STRIP_PROCESS_ARGS") with
  | .ok true => { c with scrubber := { c.scrubber with stripAllArguments := true } }
  | _ => c

/-- DD_AGENT_PY / DD_AGENT_PY_ENV block (lines 429-434). -/
def envAgentPyStage (env : EnvList) (c : AgentConfig) : AgentConfig :=
  let c : AgentConfig :=
    if getenv env "DD_AGENT_PY" ≠ "" then { c with ddAgentPy := getenv env "DD_AGENT_PY" } else c
  if getenv env "DD_AGENT_PY_ENV" ≠ "" then
    { c with ddAgentPyEnv := goSplitComma (getenv env "DD_AGENT_PY_ENV") }
  else c

/-- DD_DOGSTATSD_PORT block (lines 436-443): an unparsable port is only
logged. -/
def envStatsdPortStage (env : EnvList) (c : AgentConfig) : AgentConfig :=
  if getenv env "DD_DOGSTATSD_PORT" ≠ "" then
    match goAtoi (getenv env "DD_DOGSTATSD_PORT") with
    | some port => { c with statsdPort := port }
    | none => c
  else c

/-- DD_BIND_HOST block (lines 445-447). -/
def envBindHostStage (env : EnvList) (c : AgentConfig) : AgentConfig :=
  if getenv env "DD_BIND_HOST" ≠ "" then { c with statsdHost := getenv env "DD_BIND_HOST" } else c

/-- DD_COLLECT_DOCKER_NETWORK block (lines 450-452): compares the value
to the exact string false, as the source does. -/
def envDockerNetworkStage (env : EnvList) (c : AgentConfig) : AgentConfig :=
  if getenv env "DD_COLLECT_DOCKER_NETWORK" = "false" then
    { c with collectDockerNetwork := false }
  else c

/-- DD_CONTAINER_BLACKLIST / DD_CONTAINER_WHITELIST block (453-458). -/
def envContainerListsStage (env : EnvList) (c : AgentConfig) : AgentConfig :=
  let c : AgentConfig :=
    if getenv env "DD_CONTAINER_BLACKLIST" ≠ "" then
      { c with containerBlacklist := goSplitComma (getenv env "DD_CONTAINER_BLACKLIST") }
    else c
  if getenv env "DD_CONTAINER_WHITELIST" ≠ "" then
    { c with containerWhitelist := goSplitComma (getenv env "DD_CONTAINER_WHITELIST") }
  else c

/-- DD_CONTAINER_CACHE_DURATION block (lines 459-462): an unparsable
value leaves Atoi's zero result. -/
def envCacheDurationStage (env : EnvList) (c : AgentConfig) : AgentConfig :=
  if getenv env "DD_CONTAINER_CACHE_DURATION" ≠ "" then
    { c with containerCacheDuration := ((goAtoi (getenv env "DD_CONTAINER_CACHE_DURATION")).getD 0) * nsPerSecond }
  else c

/-- DD_CONNECTIONS_CHECK block (lines 465-467). -/
def envConnectionsStage (env : EnvList) (c : AgentConfig) : AgentConfig :=
  match isAffirmative (getenv env "DD_CONNECTIONS_CHECK") with
  | .ok true => { c with enabledChecks := c.enabledChecks ++ ["connections"] }
  | _ => c

/-- mergeEnvironmentVariables (config.go lines 354-470): the blocks
above in source order. -/
def mergeEnvironmentVariables (env : EnvList) (c0 : AgentConfig) : AgentConfig :=
  envConnectionsStage env (envCacheDurationStage env (envContainerListsStage env
    (envDockerNetworkStage env (envBindHostStage env (envStatsdPortStage env
      (envAgentPyStage env (envStripArgsStage env (envCustomWordsStage env
        (envScrubArgsStage env (envEndpointStage env (envProxyStage env
          (envLogToConsoleStage env (envLogLevelStage env (envAPIKeyStage env
            (envHostNameStage env (envEnabledStage env c0))))))))))))))))

/-- NewAgentConfig (config.go lines 203-351): defaults, then the Main
section of the legacy file when present, then the yaml file when
present, then the environment, then post-processing.  External steps
are outside the embedding: NewLoggerLevel (logging side effect, its
failure path untaken for the inputs considered), the hostname
subprocess/Fargate fallback (HostName is left as merged), and the
Transport.Proxy attachment (with the Transport field). -/
def newAgentConfig (agentIni : Option IniConfig) (agentYaml : Option YamlAgentConfig)
    (env : EnvList) (canAccessContainers : Bool)
    (ddLogLevel : String) (ddStatsdPort : Int) : Except Unit AgentConfig :=
  let cfg := newDefaultAgentConfig canAccessContainers env
  (match agentIni with
   | some ini => iniStage cfg ini
   | none => .ok cfg).bind (fun cfg =>
    (match agentYaml with
     | some yc => mergeYamlConfig ddLogLevel ddStatsdPort cfg yc
     | none => .ok cfg).bind (fun cfg =>
      let cfg := mergeEnvironmentVariables env cfg
      let cfg : AgentConfig :=
        if strToLower cfg.logLevel = "warning" then { cfg with logLevel := "warn" } else cfg
      let cfg : AgentConfig :=
        if cfg.windows.argsRefreshInterval = 0 then
          { cfg with windows := { cfg.windows with argsRefreshInterval := -1 } }
        else cfg
      .ok cfg))

/-! # Theorems -/

/-! ## Helper lemmas (shared; not tied to a single claim) -/

/-- The ScrubCmdline pattern loop leaves the string and the changed
flag alone when no pattern matches the string. -/
theorem scrubFold_no_match (ps : List (List ScrubAtom)) (raw : List Char)
    (h : ∀ p ∈ ps, patternMatches p raw = false) :
    ps.foldl
      (fun (st : List Char × Bool) pat =>
        if patternMatches pat st.1 then (replaceAllPattern pat st.1, true) else st)
      (raw, false) = (raw, false) := by
  induction ps with
  | nil => rfl
  | cons p ps ih =>
    simp only [List.foldl_cons]
    rw [if_neg (by simp [h p (List.mem_cons_self _ _)])]
    exact ih (fun q hq => h q (List.mem_cons_of_mem _ hq))

/-- The word-compilation loop is the filterMap of single-word
compilation (in particular it never fails as a whole and preserves the
input order of the successfully compiled words). -/
theorem compile_foldl_filterMap (ws : List String) : ∀ acc : List (List ScrubAtom),
    ws.foldl
      (fun acc w => match compileWord w with | some p => acc ++ [p] | none => acc)
      acc = acc ++ ws.filterMap compileWord := by
  induction ws with
  | nil => simp
  | cons w ws ih =>
    intro acc
    cases h : compileWord w <;>
      simp [List.foldl_cons, h, List.filterMap_cons, ih, List.append_assoc]

/-- The wildcard scan fails exactly on two consecutive stars. -/
theorem scanWord_none_iff (cs : List Char) :
    scanWord cs = none ↔ hasConsecStars cs = true := by
  induction cs with
  | nil => simp [scanWord, hasConsecStars]
  | cons c cs ih =>
    by_cases hc : c = '*'
    · subst hc
      cases cs with
      | nil => simp [scanWord, hasConsecStars]
      | cons c2 rest =>
        by_cases hc2 : c2 = '*'
        · subst hc2; simp [scanWord, hasConsecStars]
        · rw [show scanWord ('*' :: c2 :: rest) =
                (scanWord (c2 :: rest)).map (fun l => ScrubAtom.starNot c2 :: l) from by
              rw [scanWord]; simp [hc2]]
          rw [show hasConsecStars ('*' :: c2 :: rest) = hasConsecStars (c2 :: rest) from by
              rw [hasConsecStars]; simp [hc2]]
          simpa using ih
    · cases cs with
      | nil => simp [scanWord, hasConsecStars, hc]
      | cons c2 rest =>
        rw [show scanWord (c :: c2 :: rest) =
              (scanWord (c2 :: rest)).map (fun l => ScrubAtom.lit c :: l) from by
            rw [scanWord]; simp [hc]]
        rw [show hasConsecStars (c :: c2 :: rest) = hasConsecStars (c2 :: rest) from by
            rw [hasConsecStars]; simp [hc]]
        simpa using ih

/-! ## C1 -/

/-- C1: with the custom sensitive words *password*, consul_token and
*api_key added to the default list, ScrubCmdline masks the value of
every matching key of the given command line exactly as stated. -/
theorem c1_scrub_custom_words :
    scrubCmdline
      (addCustomSensitiveWords newDefaultDataScrubber
        ["*password*", "consul_token", "*api_key"])
      ["spidly", "--mypasswords=123,456", "consul_token", "1234", "--dd_api_key=1234"] =
    ["spidly", "--mypasswords=********", "consul_token", "********", "--dd_api_key=********"] := by
  decide

/-! ## C2 -/

/-- C2, counterexample: with only the default word list the token
--mypasswords=123,456 is NOT rewritten to --mypasswords=******** (no
default word matches the key mypasswords: the synthesized pattern
requires the sensitive word to follow the dashes immediately). -/
theorem c2_counterexample :
    scrubCmdline newDefaultDataScrubber ["spidly", "--mypasswords=123,456"] ≠
      ["spidly", "--mypasswords=********"] := by
  decide

/-- C2, amended: with only the compiled default sensitive-word list,
ScrubCmdline leaves [spidly, --mypasswords=123,456] entirely unchanged:
no default pattern matches, so the input sequence is returned as is. -/
theorem c2_default_words_leave_cmdline_unchanged :
    scrubCmdline newDefaultDataScrubber ["spidly", "--mypasswords=123,456"] =
      ["spidly", "--mypasswords=123,456"] := by
  decide

/-! ## C3 -/

/-- C3: a disabled scrubber returns every command line unchanged, and
an enabled scrubber none of whose patterns matches the space-joined
command line also returns it unchanged. -/
theorem c3_scrub_identity (ds : DataScrubber) (ts : List String) :
    (ds.enabled = false → scrubCmdline ds ts = ts) ∧
    (ds.enabled = true →
      (∀ p ∈ ds.sensitivePatterns, patternMatches p (joinSpaceChars ts) = false) →
      scrubCmdline ds ts = ts) := by
  constructor
  · intro h
    simp [scrubCmdline, h]
  · intro he hnm
    unfold scrubCmdline
    rw [if_neg (by simp [he])]
    simp only [scrubFold_no_match _ _ hnm]
    simp

/-- C3, witness: the theorem applied to a disabled scrubber and to the
default scrubber on a command line free of sensitive keys. -/
theorem c3_scrub_identity_witness :
    scrubCmdline { newDefaultDataScrubber with enabled := false }
        ["agent", "--password=123"] = ["agent", "--password=123"] ∧
    scrubCmdline newDefaultDataScrubber ["ls", "-la"] = ["ls", "-la"] :=
  ⟨(c3_scrub_identity _ _).1 rfl, (c3_scrub_identity _ _).2 rfl (by decide)⟩

/-! ## C6 -/

/-- C6: compileStringsToRegex is the filterMap of per-word compilation
(it never fails as a whole, every valid word of a batch contributes its
matcher, and input order is preserved), and a word is skipped exactly
when it contains a character outside [A-Za-z0-9_*], is the bare
wildcard, or contains two consecutive wildcards. -/
theorem c6_compile_characterization (ws : List String) (w : String) :
    compileStringsToRegex ws = ws.filterMap compileWord ∧
    (compileWord w = none ↔
      (w.toList.any (fun c => !(isWordChar c)) = true ∨ w = "*" ∨
        hasConsecStars w.toList = true)) := by
  constructor
  · exact compile_foldl_filterMap ws []
  · by_cases h1 : w.toList.any (fun c => !(isWordChar c)) = true
    · exact iff_of_true (by unfold compileWord; rw [if_pos h1]) (Or.inl h1)
    · by_cases h2 : w = "*"
      · exact iff_of_true (by unfold compileWord; rw [if_neg h1, if_pos h2])
          (Or.inr (Or.inl h2))
      · rw [show compileWord w = scanWord w.toList from by
            unfold compileWord; rw [if_neg h1, if_neg h2]]
        rw [scanWord_none_iff]
        constructor
        · exact fun h => Or.inr (Or.inr h)
        · rintro (h | h | h)
          · exact absurd h h1
          · exact absurd h h2
          · exact h

/-! ## Shared stage lemmas for the configuration resolver (C4, C5) -/

/-! Frame lemmas: each environment block leaves the fields it does
not read alone.  Mechanical: unfold one block, split its branches. -/

/-- envEnabledStage does not change apiKey. -/
theorem envEnabledStage_ak (env : EnvList) (c : AgentConfig) :
    (envEnabledStage env c).apiKey = c.apiKey := by
  unfold envEnabledStage
  try simp only []
  (repeat' split) <;> rfl

/-- envEnabledStage does not change apiEndpoint. -/
theorem envEnabledStage_ep (env : EnvList) (c : AgentConfig) :
    (envEnabledStage env c).apiEndpoint = c.apiEndpoint := by
  unfold envEnabledStage
  try simp only []
  (repeat' split) <;> rfl

/-- envEnabledStage does not change maxPerMessage. -/
theorem envEnabledStage_mpm (env : EnvList) (c : AgentConfig) :
    (envEnabledStage env c).maxPerMessage = c.maxPerMessage := by
  unfold envEnabledStage
  try simp only []
  (repeat' split) <;> rfl

/-- envHostNameStage does not change apiKey. -/
theorem envHostNameStage_ak (env : EnvList) (c : AgentConfig) :
    (envHostNameStage env c).apiKey = c.apiKey := by
  unfold envHostNameStage
  try simp only []
  (repeat' split) <;> rfl

/-- envHostNameStage does not change apiEndpoint. -/
theorem envHostNameStage_ep (env : EnvList) (c : AgentConfig) :
    (envHostNameStage env c).apiEndpoint = c.apiEndpoint := by
  unfold envHostNameStage
  try simp only []
  (repeat' split) <;> rfl

/-- envHostNameStage does not change maxPerMessage. -/
theorem envHostNameStage_mpm (env : EnvList) (c : AgentConfig) :
    (envHostNameStage env c).maxPerMessage = c.maxPerMessage := by
  unfold envHostNameStage
  try simp only []
  (repeat' split) <;> rfl

/-- envAPIKeyStage does not change apiEndpoint. -/
theorem envAPIKeyStage_ep (env : EnvList) (c : AgentConfig) :
    (envAPIKeyStage env c).apiEndpoint = c.apiEndpoint := by
  unfold envAPIKeyStage
  try simp only []
  (repeat' split) <;> rfl

/-- envAPIKeyStage does not change maxPerMessage. -/
theorem envAPIKeyStage_mpm (env : EnvList) (c : AgentConfig) :
    (envAPIKeyStage env c).maxPerMessage = c.maxPerMessage := by
  unfold envAPIKeyStage
  try simp only []
  (repeat' split) <;> rfl

/-- envLogLevelStage does not change apiKey. -/
theorem envLogLevelStage_ak (env : EnvList) (c : AgentConfig) :
    (envLogLevelStage env c).apiKey = c.apiKey := by
  unfold envLogLevelStage
  try simp only []
  (repeat' split) <;> rfl

/-- envLogLevelStage does not change apiEndpoint. -/
theorem envLogLevelStage_ep (env : EnvList) (c : AgentConfig) :
    (envLogLevelStage env c).apiEndpoint = c.apiEndpoint := by
  unfold envLogLevelStage
  try simp only []
  (repeat' split) <;> rfl

/-- envLogLevelStage does not change maxPerMessage. -/
theorem envLogLevelStage_mpm (env : EnvList) (c : AgentConfig) :
    (envLogLevelStage env c).maxPerMessage = c.maxPerMessage := by
  unfold envLogLevelStage
  try simp only []
  (repeat' split) <;> rfl

/-- envLogToConsoleStage does not change apiKey. -/
theorem envLogToConsoleStage_ak (env : EnvList) (c : AgentConfig) :
    (envLogToConsoleStage env c).apiKey = c.apiKey := by
  unfold envLogToConsoleStage
  try simp only []
  (repeat' split) <;> rfl

/-- envLogToConsoleStage does not change apiEndpoint. -/
theorem envLogToConsoleStage_ep (env : EnvList) (c : AgentConfig) :
    (envLogToConsoleStage env c).apiEndpoint = c.apiEndpoint := by
  unfold envLogToConsoleStage
  try simp only []
  (repeat' split) <;> rfl

/-- envLogToConsoleStage does not change maxPerMessage. -/
theorem envLogToConsoleStage_mpm (env : EnvList) (c : AgentConfig) :
    (envLogToConsoleStage env c).maxPerMessage = c.maxPerMessage := by
  unfold envLogToConsoleStage
  try simp only []
  (repeat' split) <;> rfl

/-- envProxyStage does not change apiKey. -/
theorem envProxyStage_ak (env : EnvList) (c : AgentConfig) :
    (envProxyStage env c).apiKey = c.apiKey := by
  unfold envProxyStage
  try simp only []
  (repeat' split) <;> rfl

/-- envProxyStage does not change apiEndpoint. -/
theorem envProxyStage_ep (env : EnvList) (c : AgentConfig) :
    (envProxyStage env c).apiEndpoint = c.apiEndpoint := by
  unfold envProxyStage
  try simp only []
  (repeat' split) <;> rfl

/-- envProxyStage does not change maxPerMessage. -/
theorem envProxyStage_mpm (env : EnvList) (c : AgentConfig) :
    (envProxyStage env c).maxPerMessage = c.maxPerMessage := by
  unfold envProxyStage
  try simp only []
  (repeat' split) <;> rfl

/-- envEndpointStage does not change apiKey. -/
theorem envEndpointStage_ak (env : EnvList) (c : AgentConfig) :
    (envEndpointStage env c).apiKey = c.apiKey := by
  unfold envEndpointStage
  try simp only []
  (repeat' split) <;> rfl

/-- envEndpointStage does not change maxPerMessage. -/
theorem envEndpointStage_mpm (env : EnvList) (c : AgentConfig) :
    (envEndpointStage env c).maxPerMessage = c.maxPerMessage := by
  unfold envEndpointStage
  try simp only []
  (repeat' split) <;> rfl

/-- envScrubArgsStage does not change apiKey. -/
theorem envScrubArgsStage_ak (env : EnvList) (c : AgentConfig) :
    (envScrubArgsStage env c).apiKey = c.apiKey := by
  unfold envScrubArgsStage
  try simp only []
  (repeat' split) <;> rfl

/-- envScrubArgsStage does not change apiEndpoint. -/
theorem envScrubArgsStage_ep (env : EnvList) (c : AgentConfig) :
    (envScrubArgsStage env c).apiEndpoint = c.apiEndpoint := by
  unfold envScrubArgsStage
  try simp only []
  (repeat' split) <;> rfl

/-- envScrubArgsStage does not change maxPerMessage. -/
theorem envScrubArgsStage_mpm (env : EnvList) (c : AgentConfig) :
    (envScrubArgsStage env c).maxPerMessage = c.maxPerMessage := by
  unfold envScrubArgsStage
  try simp only []
  (repeat' split) <;> rfl

/-- envCustomWordsStage does not change apiKey. -/
theorem envCustomWordsStage_ak (env : EnvList) (c : AgentConfig) :
    (envCustomWordsStage env c).apiKey = c.apiKey := by
  unfold envCustomWordsStage
  try simp only []
  (repeat' split) <;> rfl

/-- envCustomWordsStage does not change apiEndpoint. -/
theorem envCustomWordsStage_ep (env : EnvList) (c : AgentConfig) :
    (envCustomWordsStage env c).apiEndpoint = c.apiEndpoint := by
  unfold envCustomWordsStage
  try simp only []
  (repeat' split) <;> rfl

/-- envCustomWordsStage does not change maxPerMessage. -/
theorem envCustomWordsStage_mpm (env : EnvList) (c : AgentConfig) :
    (envCustomWordsStage env c).maxPerMessage = c.maxPerMessage := by
  unfold envCustomWordsStage
  try simp only []
  (repeat' split) <;> rfl

/-- envStripArgsStage does not change apiKey. -/
theorem envStripArgsStage_ak (env : EnvList) (c : AgentConfig) :
    (envStripArgsStage env c).apiKey = c.apiKey := by
  unfold envStripArgsStage
  try simp only []
  (repeat' split) <;> rfl

/-- envStripArgsStage does not change apiEndpoint. -/
theorem envStripArgsStage_ep (env : EnvList) (c : AgentConfig) :
    (envStripArgsStage env c).apiEndpoint = c.apiEndpoint := by
  unfold envStripArgsStage
  try simp only []
  (repeat' split) <;> rfl

/-- envStripArgsStage does not change maxPerMessage. -/
theorem envStripArgsStage_mpm (env : EnvList) (c : AgentConfig) :
    (envStripArgsStage env c).maxPerMessage = c.maxPerMessage := by
  unfold envStripArgsStage
  try simp only []
  (repeat' split) <;> rfl

/-- envAgentPyStage does not change apiKey. -/
theorem envAgentPyStage_ak (env : EnvList) (c : AgentConfig) :
    (envAgentPyStage env c).apiKey = c.apiKey := by
  unfold envAgentPyStage
  try simp only []
  (repeat' split) <;> rfl

/-- envAgentPyStage does not change apiEndpoint. -/
theorem envAgentPyStage_ep (env : EnvList) (c : AgentConfig) :
    (envAgentPyStage env c).apiEndpoint = c.apiEndpoint := by
  unfold envAgentPyStage
  try simp only []
  (repeat' split) <;> rfl

/-- envAgentPyStage does not change maxPerMessage. -/
theorem envAgentPyStage_mpm (env : EnvList) (c : AgentConfig) :
    (envAgentPyStage env c).maxPerMessage = c.maxPerMessage := by
  unfold envAgentPyStage
  try simp only []
  (repeat' split) <;> rfl

/-- envStatsdPortStage does not change apiKey. -/
theorem envStatsdPortStage_ak (env : EnvList) (c : AgentConfig) :
    (envStatsdPortStage env c).apiKey = c.apiKey := by
  unfold envStatsdPortStage
  try simp only []
  (repeat' split) <;> rfl

/-- envStatsdPortStage does not change apiEndpoint. -/
theorem envStatsdPortStage_ep (env : EnvList) (c : AgentConfig) :
    (envStatsdPortStage env c).apiEndpoint = c.apiEndpoint := by
  unfold envStatsdPortStage
  try simp only []
  (repeat' split) <;> rfl

/-- envStatsdPortStage does not change maxPerMessage. -/
theorem envStatsdPortStage_mpm (env : EnvList) (c : AgentConfig) :
    (envStatsdPortStage env c).maxPerMessage = c.maxPerMessage := by
  unfold envStatsdPortStage
  try simp only []
  (repeat' split) <;> rfl

/-- envBindHostStage does not change apiKey. -/
theorem envBindHostStage_ak (env : EnvList) (c : AgentConfig) :
    (envBindHostStage env c).apiKey = c.apiKey := by
  unfold envBindHostStage
  try simp only []
  (repeat' split) <;> rfl

/-- envBindHostStage does not change apiEndpoint. -/
theorem envBindHostStage_ep (env : EnvList) (c : AgentConfig) :
    (envBindHostStage env c).apiEndpoint = c.apiEndpoint := by
  unfold envBindHostStage
  try simp only []
  (repeat' split) <;> rfl

/-- envBindHostStage does not change maxPerMessage. -/
theorem envBindHostStage_mpm (env : EnvList) (c : AgentConfig) :
    (envBindHostStage env c).maxPerMessage = c.maxPerMessage := by
  unfold envBindHostStage
  try simp only []
  (repeat' split) <;> rfl

/-- envDockerNetworkStage does not change apiKey. -/
theorem envDockerNetworkStage_ak (env : EnvList) (c : AgentConfig) :
    (envDockerNetworkStage env c).apiKey = c.apiKey := by
  unfold envDockerNetworkStage
  try simp only []
  (repeat' split) <;> rfl

/-- envDockerNetworkStage does not change apiEndpoint. -/
theorem envDockerNetworkStage_ep (env : EnvList) (c : AgentConfig) :
    (envDockerNetworkStage env c).apiEndpoint = c.apiEndpoint := by
  unfold envDockerNetworkStage
  try simp only []
  (repeat' split) <;> rfl

/-- envDockerNetworkStage does not change maxPerMessage. -/
theorem envDockerNetworkStage_mpm (env : EnvList) (c : AgentConfig) :
    (envDockerNetworkStage env c).maxPerMessage = c.maxPerMessage := by
  unfold envDockerNetworkStage
  try simp only []
  (repeat' split) <;> rfl

/-- envContainerListsStage does not change apiKey. -/
theorem envContainerListsStage_ak (env : EnvList) (c : AgentConfig) :
    (envContainerListsStage env c).apiKey = c.apiKey := by
  unfold envContainerListsStage
  try simp only []
  (repeat' split) <;> rfl

/-- envContainerListsStage does not change apiEndpoint. -/
theorem envContainerListsStage_ep (env : EnvList) (c : AgentConfig) :
    (envContainerListsStage env c).apiEndpoint = c.apiEndpoint := by
  unfold envContainerListsStage
  try simp only []
  (repeat' split) <;> rfl

/-- envContainerListsStage does not change maxPerMessage. -/
theorem envContainerListsStage_mpm (env : EnvList) (c : AgentConfig) :
    (envContainerListsStage env c).maxPerMessage = c.maxPerMessage := by
  unfold envContainerListsStage
  try simp only []
  (repeat' split) <;> rfl

/-- envCacheDurationStage does not change apiKey. -/
theorem envCacheDurationStage_ak (env : EnvList) (c : AgentConfig) :
    (envCacheDurationStage env c).apiKey = c.apiKey := by
  unfold envCacheDurationStage
  try simp only []
  (repeat' split) <;> rfl

/-- envCacheDurationStage does not change apiEndpoint. -/
theorem envCacheDurationStage_ep (env : EnvList) (c : AgentConfig) :
    (envCacheDurationStage env c).apiEndpoint = c.apiEndpoint := by
  unfold envCacheDurationStage
  try simp only []
  (repeat' split) <;> rfl

/-- envCacheDurationStage does not change maxPerMessage. -/
theorem envCacheDurationStage_mpm (env : EnvList) (c : AgentConfig) :
    (envCacheDurationStage env c).maxPerMessage = c.maxPerMessage := by
  unfold envCacheDurationStage
  try simp only []
  (repeat' split) <;> rfl

/-- envConnectionsStage does not change apiKey. -/
theorem envConnectionsStage_ak (env : EnvList) (c : AgentConfig) :
    (envConnectionsStage env c).apiKey = c.apiKey := by
  unfold envConnectionsStage
  try simp only []
  (repeat' split) <;> rfl

/-- envConnectionsStage does not change apiEndpoint. -/
theorem envConnectionsStage_ep (env : EnvList) (c : AgentConfig) :
    (envConnectionsStage env c).apiEndpoint = c.apiEndpoint := by
  unfold envConnectionsStage
  try simp only []
  (repeat' split) <;> rfl

/-- envConnectionsStage does not change maxPerMessage. -/
theorem envConnectionsStage_mpm (env : EnvList) (c : AgentConfig) :
    (envConnectionsStage env c).maxPerMessage = c.maxPerMessage := by
  unfold envConnectionsStage
  try simp only []
  (repeat' split) <;> rfl

/-- The API-key block is a no-op when neither DD_API_KEY nor API_KEY
is set. -/
theorem envAPIKeyStage_ak_unset (env : EnvList) (c : AgentConfig)
    (h1 : getenv env "DD_API_KEY" = "") (h2 : getenv env "API_KEY" = "") :
    (envAPIKeyStage env c).apiKey = c.apiKey := by
  unfold envAPIKeyStage
  simp [h1, h2]

/-- The endpoint block overrides the endpoint exactly when
DD_PROCESS_AGENT_URL is nonempty and parses. -/
theorem envEndpointStage_ep (env : EnvList) (c : AgentConfig) :
    (envEndpointStage env c).apiEndpoint =
      (if getenv env "DD_PROCESS_AGENT_URL" ≠ "" then
        (if urlParseOk (getenv env "DD_PROCESS_AGENT_URL") then
          getenv env "DD_PROCESS_AGENT_URL"
        else c.apiEndpoint)
      else c.apiEndpoint) := by
  unfold envEndpointStage
  try simp only []
  (repeat' split) <;> rfl


theorem mergeEnv_maxPerMessage (env : EnvList) (c : AgentConfig) :
    (mergeEnvironmentVariables env c).maxPerMessage = c.maxPerMessage := by
  unfold mergeEnvironmentVariables
  rw [envConnectionsStage_mpm, envCacheDurationStage_mpm, envContainerListsStage_mpm,
    envDockerNetworkStage_mpm, envBindHostStage_mpm, envStatsdPortStage_mpm,
    envAgentPyStage_mpm, envStripArgsStage_mpm, envCustomWordsStage_mpm,
    envScrubArgsStage_mpm, envEndpointStage_mpm, envProxyStage_mpm,
    envLogToConsoleStage_mpm, envLogLevelStage_mpm, envAPIKeyStage_mpm,
    envHostNameStage_mpm, envEnabledStage_mpm]

theorem mergeEnv_apiKey (env : EnvList) (c : AgentConfig)
    (h1 : getenv env "DD_API_KEY" = "") (h2 : getenv env "API_KEY" = "") :
    (mergeEnvironmentVariables env c).apiKey = c.apiKey := by
  unfold mergeEnvironmentVariables
  rw [envConnectionsStage_ak, envCacheDurationStage_ak, envContainerListsStage_ak,
    envDockerNetworkStage_ak, envBindHostStage_ak, envStatsdPortStage_ak,
    envAgentPyStage_ak, envStripArgsStage_ak, envCustomWordsStage_ak,
    envScrubArgsStage_ak, envEndpointStage_ak, envProxyStage_ak,
    envLogToConsoleStage_ak, envLogLevelStage_ak, envAPIKeyStage_ak_unset _ _ h1 h2,
    envHostNameStage_ak, envEnabledStage_ak]

theorem mergeEnv_apiEndpoint (env : EnvList) (c : AgentConfig) :
    (mergeEnvironmentVariables env c).apiEndpoint =
      (if getenv env "DD_PROCESS_AGENT_URL" ≠ "" then
        (if urlParseOk (getenv env "DD_PROCESS_AGENT_URL") then
          getenv env "DD_PROCESS_AGENT_URL"
        else c.apiEndpoint)
      else c.apiEndpoint) := by
  unfold mergeEnvironmentVariables
  rw [envConnectionsStage_ep, envCacheDurationStage_ep, envContainerListsStage_ep,
    envDockerNetworkStage_ep, envBindHostStage_ep, envStatsdPortStage_ep,
    envAgentPyStage_ep, envStripArgsStage_ep, envCustomWordsStage_ep,
    envScrubArgsStage_ep, envEndpointStage_ep, envProxyStage_ep,
    envLogToConsoleStage_ep, envLogLevelStage_ep, envAPIKeyStage_ep,
    envHostNameStage_ep, envEnabledStage_ep]

theorem mergeYaml_fields (dd : String) (sp : Int) (cfg : AgentConfig) (yc : YamlAgentConfig)
    (c' : AgentConfig) (h : mergeYamlConfig dd sp cfg yc = .ok c') :
    c'.apiKey = yc.apiKey ∧
    (yc.process.processDDURL ≠ "" → c'.apiEndpoint = yc.process.processDDURL) ∧
    (cfg.maxPerMessage ≤ maxMessageBatch → c'.maxPerMessage ≤ maxMessageBatch) := by
  unfold mergeYamlConfig at h
  by_cases herr : (yc.process.processDDURL ≠ "" ∧ urlParseOk yc.process.processDDURL = false)
  · simp only [] at h
    rw [if_pos herr] at h
    exact absurd h (by simp)
  · rcases haff : isAffirmative yc.process.enabled with e | b
    all_goals try cases b
    all_goals (
      simp only [haff] at h
      rw [if_neg herr] at h
      rcases hsc : yc.process.scrubArgs with _ | sb <;>
        rcases hw : yc.process.windows.addNewArgs with _ | wb <;>
        · simp only [hsc, hw] at h
          injection h with h
          subst h
          refine ⟨?_, fun hne => ?_, fun hmp => ?_⟩
          · simp only [apply_ite AgentConfig.apiKey, ite_self]
          · simp [apply_ite AgentConfig.apiEndpoint, hne]
          · simp only [apply_ite AgentConfig.maxPerMessage, ite_self]
            split
            · split
              · assumption
              · exact hmp
            · exact hmp)

theorem iniStage_maxPerMessage (cfg : AgentConfig) (ini : IniConfig) (c' : AgentConfig)
    (h : iniStage cfg ini = .ok c') :
    c'.maxPerMessage ≤ maxMessageBatch := by
  unfold iniStage at h
  cases hak : ini.apiKey with
  | none => rw [hak] at h; exact absurd h (by simp)
  | some a =>
    rw [hak] at h
    by_cases hurl : urlParseOk (ini.endpoint.getD defaultEndpoint) = false
    all_goals (
      rcases hpae : isAffirmative (ini.processAgentEnabled.getD "") with e | b
      all_goals try cases b
      all_goals (
        rcases hnlt : isAffirmative (ini.nonLocalTraffic.getD "") with e2 | b2
        all_goals try cases b2
        all_goals simp only [hpae, hnlt] at h))
    all_goals try (rw [if_pos hurl] at h; exact absurd h (by simp))
    all_goals (
      rw [if_neg hurl] at h
      injection h with h
      subst h
      simp only [apply_ite AgentConfig.maxPerMessage, ite_self]
      split
      · assumption
      · exact le_refl _)

/-! ## C4 -/

/-- C4, counterexample: the API key set only in the legacy file is NOT
retained when a structured file is present but omits api_key — the
structured stage overwrites it with the empty string. -/
theorem c4_counterexample :
    ((newAgentConfig (some { apiKey := some "foo" }) (some {}) [] true "info" 8125).toOption.map
      (fun c => c.apiKey)) = some "" ∧ ("" : String) ≠ "foo" :=
  ⟨rfl, by decide⟩

/-- C4, amended: resolution merges defaults, legacy file, structured
file and environment in that order.  For guarded fields the stated
precedence holds — a field set in the legacy file and overridden in the
structured file resolves to the structured value (endpoint URL shown
when the environment is silent), a field additionally set via a parsing
environment value resolves to the environment's value, and a field set
nowhere resolves to the default — but the structured stage does NOT
only override fields it explicitly sets: it always overwrites the API
key with its own api_key value, so a key set only in the legacy file is
reset to empty, not retained. -/
theorem c4_api_precedence :
    (∀ (dd : String) (sp : Int) (cfg : AgentConfig) (yc : YamlAgentConfig) (c' : AgentConfig),
      mergeYamlConfig dd sp cfg yc = .ok c' → c'.apiKey = yc.apiKey) ∧
    (∀ (agentIni : Option IniConfig) (yc : YamlAgentConfig) (env : EnvList) (cA : Bool)
      (dd : String) (sp : Int) (cfg : AgentConfig),
      newAgentConfig agentIni (some yc) env cA dd sp = .ok cfg →
      (getenv env "DD_API_KEY" = "" → getenv env "API_KEY" = "" → cfg.apiKey = yc.apiKey) ∧
      (yc.process.processDDURL ≠ "" → getenv env "DD_PROCESS_AGENT_URL" = "" →
        cfg.apiEndpoint = yc.process.processDDURL) ∧
      (getenv env "DD_PROCESS_AGENT_URL" ≠ "" →
        urlParseOk (getenv env "DD_PROCESS_AGENT_URL") = true →
        cfg.apiEndpoint = getenv env "DD_PROCESS_AGENT_URL")) ∧
    ((newAgentConfig none none [] true "info" 8125).toOption.map (fun c => c.apiEndpoint) =
      some defaultEndpoint) := by
  refine ⟨?_, ?_, by rfl⟩
  · intro dd sp cfg yc c' h
    exact (mergeYaml_fields _ _ _ _ _ h).1
  · intro agentIni yc env cA dd sp cfg h
    unfold newAgentConfig at h
    simp only [] at h
    cases hI : (match agentIni with
        | some ini => iniStage (newDefaultAgentConfig cA env) ini
        | none => Except.ok (newDefaultAgentConfig cA env)) with
    | error e =>
      rw [hI] at h
      exact absurd h (by simp [Except.bind])
    | ok c1 =>
      rw [hI] at h
      simp only [Except.bind] at h
      cases hY : mergeYamlConfig dd sp c1 yc with
      | error e =>
        rw [hY] at h
        exact absurd h (by simp [Except.bind])
      | ok c2 =>
        rw [hY] at h
        simp only [Except.bind] at h
        injection h with h
        subst h
        have hy := mergeYaml_fields _ _ _ _ _ hY
        refine ⟨fun e1 e2 => ?_, fun hne henv => ?_, fun henv hok => ?_⟩
        · simp only [apply_ite AgentConfig.apiKey, ite_self]
          rw [mergeEnv_apiKey _ _ e1 e2]
          exact hy.1
        · simp only [apply_ite AgentConfig.apiEndpoint, ite_self]
          rw [mergeEnv_apiEndpoint]
          rw [if_neg (by simp [henv])]
          exact hy.2.1 hne
        · simp only [apply_ite AgentConfig.apiEndpoint, ite_self]
          rw [mergeEnv_apiEndpoint]
          rw [if_pos henv, if_pos hok]

/-- C4, witness: the amended theorem at a legacy file carrying api_key
and endpoint, a structured file carrying api_key and process_dd_url,
and an environment that is silent (then one carrying
DD_PROCESS_AGENT_URL). -/
theorem c4_api_precedence_witness :
    (((newAgentConfig (some { apiKey := some "legacy_key", endpoint := some "http://legacy.example.com" })
        (some { apiKey := "yaml_key", process := { processDDURL := "http://structured.example.com" } })
        [] true "info" 8125).toOption.iget).apiKey = "yaml_key" ∧
      ((newAgentConfig (some { apiKey := some "legacy_key", endpoint := some "http://legacy.example.com" })
        (some { apiKey := "yaml_key", process := { processDDURL := "http://structured.example.com" } })
        [] true "info" 8125).toOption.iget).apiEndpoint = "http://structured.example.com") ∧
    ((newAgentConfig (some { apiKey := some "legacy_key", endpoint := some "http://legacy.example.com" })
        (some { apiKey := "yaml_key", process := { processDDURL := "http://structured.example.com" } })
        [("DD_PROCESS_AGENT_URL", "http://env.example.com")] true "info" 8125).toOption.iget).apiEndpoint
      = "http://env.example.com" := by
  have h1 := c4_api_precedence.2.1
    (some { apiKey := some "legacy_key", endpoint := some "http://legacy.example.com" })
    { apiKey := "yaml_key", process := { processDDURL := "http://structured.example.com" } }
    [] true "info" 8125
    ((newAgentConfig (some { apiKey := some "legacy_key", endpoint := some "http://legacy.example.com" })
      (some { apiKey := "yaml_key", process := { processDDURL := "http://structured.example.com" } })
      [] true "info" 8125).toOption.iget) rfl
  have h2 := c4_api_precedence.2.1
    (some { apiKey := some "legacy_key", endpoint := some "http://legacy.example.com" })
    { apiKey := "yaml_key", process := { processDDURL := "http://structured.example.com" } }
    [("DD_PROCESS_AGENT_URL", "http://env.example.com")] true "info" 8125
    ((newAgentConfig (some { apiKey := some "legacy_key", endpoint := some "http://legacy.example.com" })
      (some { apiKey := "yaml_key", process := { processDDURL := "http://structured.example.com" } })
      [("DD_PROCESS_AGENT_URL", "http://env.example.com")] true "info" 8125).toOption.iget) rfl
  exact ⟨⟨h1.1 rfl rfl, h1.2.1 (by decide) rfl⟩, h2.2.2 (by decide) (by decide)⟩

/-! ## C5 -/

/-- C5, counterexample: a structured-file max_per_message of 500 does
not resolve to the clamped ceiling 100 when the legacy file set
proc_limit 50 — the yaml stage ignores the oversized value and keeps
the prior 50. -/
theorem c5_counterexample :
    ((newAgentConfig (some { apiKey := some "k", procLimit := some 50 })
        (some { process := { maxPerMessage := 500 } }) [] true "info" 8125).toOption.map
      (fun c => c.maxPerMessage)) = some 50 ∧ (50 : Int) ≠ 100 :=
  ⟨rfl, by decide⟩

/-- C5, amended: after NewAgentConfig succeeds MaxPerMessage is always
at most the fixed ceiling 100, with a diagnostic and no error for
oversized sources; an oversized legacy proc_limit is clamped to 100,
while an oversized structured max_per_message is ignored, retaining the
prior value (which is the ceiling 100 when no earlier stage lowered
it, as in the two concrete conjuncts, but can be lower — see the
counterexample). -/
theorem c5_max_per_message :
    (∀ (agentIni : Option IniConfig) (agentYaml : Option YamlAgentConfig) (env : EnvList)
      (cA : Bool) (dd : String) (sp : Int) (cfg : AgentConfig),
      newAgentConfig agentIni agentYaml env cA dd sp = .ok cfg →
      cfg.maxPerMessage ≤ maxMessageBatch) ∧
    ((newAgentConfig (some { apiKey := some "k", procLimit := some 500 }) none [] true
        "info" 8125).toOption.map (fun c => c.maxPerMessage) = some 100) ∧
    ((newAgentConfig none (some { process := { maxPerMessage := 500 } }) [] true
        "info" 8125).toOption.map (fun c => c.maxPerMessage) = some 100) := by
  refine ⟨?_, by rfl, by rfl⟩
  intro agentIni agentYaml env cA dd sp cfg h
  unfold newAgentConfig at h
  simp only [] at h
  have hdef : (newDefaultAgentConfig cA env).maxPerMessage ≤ maxMessageBatch := by
    rw [show (newDefaultAgentConfig cA env).maxPerMessage = 100 from rfl]
    norm_num [maxMessageBatch]
  cases hI : (match agentIni with
      | some ini => iniStage (newDefaultAgentConfig cA env) ini
      | none => Except.ok (newDefaultAgentConfig cA env)) with
  | error e =>
    rw [hI] at h
    exact absurd h (by simp [Except.bind])
  | ok c1 =>
    rw [hI] at h
    simp only [Except.bind] at h
    have h1 : c1.maxPerMessage ≤ maxMessageBatch := by
      cases agentIni with
      | none =>
        injection hI with hI
        rw [← hI]
        exact hdef
      | some ini => exact iniStage_maxPerMessage _ _ _ hI
    cases hY : (match agentYaml with
        | some yc => mergeYamlConfig dd sp c1 yc
        | none => Except.ok c1) with
    | error e =>
      rw [hY] at h
      exact absurd h (by simp [Except.bind])
    | ok c2 =>
      rw [hY] at h
      simp only [Except.bind] at h
      have h2 : c2.maxPerMessage ≤ maxMessageBatch := by
        cases agentYaml with
        | none =>
          injection hY with hY
          rw [← hY]
          exact h1
        | some yc => exact (mergeYaml_fields _ _ _ _ _ hY).2.2 h1
      injection h with h
      subst h
      simp only [apply_ite AgentConfig.maxPerMessage, ite_self]
      rw [mergeEnv_maxPerMessage]
      exact h2

/-- C5, witness: the invariant applied to the all-defaults resolution. -/
theorem c5_max_per_message_witness :
    ((newAgentConfig none none [] true "info" 8125).toOption.iget).maxPerMessage ≤
      maxMessageBatch :=
  c5_max_per_message.1 none none [] true "info" 8125 _ rfl

/-! ## C7 -/

/-- C7: for the legacy file setting only proxy_host = myhost (no scheme
prefix, port key absent so MustInt yields the sentinel -1, empty user
and password), getProxySettings yields the selector that maps every
request to http://myhost:3128; with no host at all it yields no proxy
and no error; and the selector's result does not depend on its request
argument. -/
theorem c7_proxy_resolution :
    getProxySettings { proxyHost := some "myhost" } =
      .ok (some (httpProxyURL "http://myhost:3128")) ∧
    (∀ req : Request, httpProxyURL "http://myhost:3128" req = some "http://myhost:3128") ∧
    (∀ req1 req2 : Request,
      httpProxyURL "http://myhost:3128" req1 = httpProxyURL "http://myhost:3128" req2) ∧
    getProxySettings {} = .ok none :=
  ⟨rfl, fun _ => rfl, fun _ _ => rfl, rfl⟩

/-! ## C8 -/

/-- C8, counterexample: with proxy_host = myhost in the legacy file the
ini stage resolves a proxy selector, but when the environment supplies
the unparsable PROXY_HOST "my host" (its space making the URL invalid),
NewAgentConfig does not retain that earlier selector: the merged
configuration's proxy is cleared (config.go line 402 sets it to nil),
refuting the claim that the field reverts to its prior value. -/
theorem c8_counterexample :
    ((iniStage (newDefaultAgentConfig true [])
        { apiKey := some "k", proxyHost := some "myhost" }).toOption.map
      (fun c => c.proxy.isSome)) = some true ∧
    ((newAgentConfig (some { apiKey := some "k", proxyHost := some "myhost" }) none
        [("PROXY_HOST", "my host")] true "info" 8125).toOption.map
      (fun c => c.proxy.isSome)) = some false := by
  exact ⟨rfl, by decide⟩

/-- C8, amended: when the proxy settings read from the environment fail
to parse into a URL, resolution continues without returning an error
and a diagnostic is logged, but the field does not revert: the proxy
selector is cleared to nil, so the agent proceeds with no proxy at
all. -/
theorem c8_amended_proxy_cleared :
    ((newAgentConfig (some { apiKey := some "k", proxyHost := some "myhost" }) none
        [("PROXY_HOST", "my host")] true "info" 8125).toOption.map
      (fun c => c.proxy)) = some none := by
  rfl

/-! ## C9 -/

/-- C9: when the structured file sets intervals.process_realtime to a
nonzero n, mergeYamlConfig sets the rtprocess entry from the regular
intervals.process field (the source multiplies Intervals.Process at the
rtprocess branch), not from n: with only process_realtime set the entry
becomes 0 seconds while every other entry keeps its default, and with
process = p also set it becomes p seconds, differing from n seconds
whenever p does. -/
theorem c9_rtprocess_interval (n p : Int) (hn : n ≠ 0) (hp : p ≠ 0) :
    ((mergeYamlConfig "info" 8125 (newDefaultAgentConfig true [])
        { process := { intervals := { processRealTime := n } } }).toOption.map
      (fun c =>
        (lookupKV c.checkIntervals "rtprocess",
         lookupKV c.checkIntervals "process",
         lookupKV c.checkIntervals "container",
         lookupKV c.checkIntervals "rtcontainer",
         lookupKV c.checkIntervals "connections"))) =
      some (some 0, some (10 * nsPerSecond), some (10 * nsPerSecond),
            some (2 * nsPerSecond), some (10 * nsPerSecond)) ∧
    ((mergeYamlConfig "info" 8125 (newDefaultAgentConfig true [])
        { process := { intervals := { process := p, processRealTime := n } } }).toOption.map
      (fun c => lookupKV c.checkIntervals "rtprocess")) = some (some (p * nsPerSecond)) ∧
    (p ≠ n →
      ((mergeYamlConfig "info" 8125 (newDefaultAgentConfig true [])
          { process := { intervals := { process := p, processRealTime := n } } }).toOption.map
        (fun c => lookupKV c.checkIntervals "rtprocess")) ≠ some (some (n * nsPerSecond))) := by
  have h2 :
      ((mergeYamlConfig "info" 8125 (newDefaultAgentConfig true [])
          { process := { intervals := { process := p, processRealTime := n } } }).toOption.map
        (fun c => lookupKV c.checkIntervals "rtprocess")) = some (some (p * nsPerSecond)) := by
    unfold mergeYamlConfig
    simp only [hn, hp, ne_eq, not_false_eq_true, if_true, ite_true, ite_false]
    rfl
  refine ⟨?_, h2, fun hpn habs => ?_⟩
  · unfold mergeYamlConfig
    simp only [hn, ne_eq, not_false_eq_true, if_true, ite_true, ite_false]
    rfl
  · rw [h2] at habs
    simp only [Option.some.injEq] at habs
    simp only [nsPerSecond] at habs
    exact hpn (by omega)

/-- C9, witness: the theorem at n = 5, p = 30 — the rtprocess interval
becomes 30 seconds (the process value), not 5. -/
theorem c9_rtprocess_interval_witness :
    ((mergeYamlConfig "info" 8125 (newDefaultAgentConfig true [])
        { process := { intervals := { process := 30, processRealTime := 5 } } }).toOption.map
      (fun c => lookupKV c.checkIntervals "rtprocess")) = some (some (30 * nsPerSecond)) ∧
    (5 : Int) ≠ 0 ∧ (30 : Int) ≠ 0 :=
  ⟨(c9_rtprocess_interval 5 30 (by decide) (by decide)).2.1, by decide, by decide⟩

/-! ## C10 -/

/-- C10: with PROXY_HOST unset or empty, proxyFromEnv returns its
defaultVal argument unchanged and no error, whatever PROXY_PORT,
PROXY_USER and PROXY_PASSWORD hold. -/
theorem c10_proxy_env_unset_host (env : EnvList) (defaultVal : Option ProxyFunc)
    (h : getenv env "PROXY_HOST" = "") :
    proxyFromEnv env defaultVal = .ok defaultVal := by
  unfold proxyFromEnv
  rw [h]
  simp [schemeHostOf]

/-- C10, witness: the theorem applied to an environment carrying proxy
port, user and password but no host, and a nontrivial prior selector. -/
theorem c10_proxy_env_unset_host_witness :
    proxyFromEnv [("PROXY_PORT", "9999"), ("PROXY_USER", "u"), ("PROXY_PASSWORD", "p")]
      (some (httpProxyURL "http://prior.example.com:1234")) =
    .ok (some (httpProxyURL "http://prior.example.com:1234")) :=
  c10_proxy_env_unset_host _ _ rfl

end ProcessAgent
